import Mathlib

/-!
Verification of the NebulaReports server (`src/server.js`).

Modelling conventions, fixed once for the whole development:

* JavaScript values that the server treats as opaque JSON (the `system`,
  `player` and `categories` payload fields, and the raw stored values) are
  modelled by the inductive type `Json` below.  An absent object property is
  modelled by `Option`.
* Times (`new Date()`, `createdAt`, `timestamp`) are modelled as integers,
  milliseconds since the epoch; `toISOString` is the runtime's injective
  presentation of such an instant and is not re-modelled.  Client numeric
  fields are modelled as integers (JavaScript `NaN` and fractional doubles
  are outside the model).
* JavaScript truthiness is modelled per type: a number is truthy iff it is
  nonzero, a string iff it is nonempty, `null` is falsy, objects and arrays
  are always truthy.
* `Math.random()` draws are modelled by an ambient stream `r : Nat → Fin 36`
  of character indices; the unbounded retry recursion of `generateId` is
  modelled with explicit fuel, `none` standing for non-termination.
* The durable mirror (`reports.json`) is modelled at the JSON-tree level:
  `JSON.stringify`/`JSON.parse` are the runtime's mutually inverse text
  codec, so the file is represented by the `Json` tree it stores.
-/

/-- A JSON value, as produced by the JavaScript runtime's JSON parser. -/
inductive Json : Type where
  | null : Json
  | bool (b : Bool) : Json
  | num (n : Int) : Json
  | str (s : String) : Json
  | arr (elems : List Json) : Json
  | obj (fields : List (String × Json)) : Json

/-- JavaScript truthiness of a JSON value (`!v` in the source negates this). -/
def Json.truthy : Json → Bool
  | .null => false
  | .bool b => b
  | .num n => n != 0
  | .str s => s != ""
  | .arr _ => true
  | .obj _ => true

/-- Model of JavaScript `typeof v === 'object'` (true for objects, arrays and null). -/
def Json.typeofObject : Json → Bool
  | .null => true
  | .arr _ => true
  | .obj _ => true
  | _ => false

/-- Model of JavaScript `Array.isArray(v)`. -/
def Json.isArray : Json → Bool
  | .arr _ => true
  | _ => false

/-- The client-supplied `executor` object: `name`, optional `version` and `type`. -/
structure ExecutorP : Type where
  name : Option String
  version : Option String
  type : Option String
deriving Repr

/-- The request body of `POST /report`, with exactly the properties the server
reads (`executor`, `system`, `player`, `categories`, `passes`, `fails`,
`totalTests`, `successRate`, `grade`, `duration`, `version`, `timestamp`).
`none` models an absent property. -/
structure Payload : Type where
  executor : Option ExecutorP
  system : Option Json
  player : Option Json
  categories : Option Json
  passes : Option Int
  fails : Option Int
  totalTests : Option Int
  successRate : Option Int
  grade : Option String
  duration : Option Int
  version : Option String
  timestamp : Option Int

/-- JavaScript `o || d` for an optional string property (empty string is falsy). -/
def strOr (o : Option String) (d : String) : String :=
  match o with
  | some s => if s = "" then d else s
  | none => d

/-- JavaScript `o || d` for an optional numeric property (zero is falsy). -/
def numOr (o : Option Int) (d : Int) : Int :=
  match o with
  | some n => if n = 0 then d else n
  | none => d

/-- JavaScript `o || d` for an optional JSON-valued property. -/
def jsOr (o : Option Json) (d : Json) : Json :=
  match o with
  | some v => if v.truthy then v else d
  | none => d

/-- Truthiness of an optional string property (`data.executor.name` standalone). -/
def truthyStr (o : Option String) : Bool :=
  match o with
  | some s => s != ""
  | none => false

/-- Truthiness of an optional numeric property (`data.timestamp` when numeric). -/
def truthyNum (o : Option Int) : Bool :=
  match o with
  | some n => n != 0
  | none => false

/-- The `results` object the server builds for each stored report. -/
structure Results : Type where
  total : Int
  passed : Int
  failed : Int
  successRate : Int
deriving Repr

/-- A stored report, with exactly the fields the handler `app.post('/report')`
assembles (lines 215–234 of `src/server.js`). -/
structure Report : Type where
  id : String
  data : Payload
  executor : Option ExecutorP
  system : Json
  player : Json
  results : Results
  categories : Json
  grade : String
  duration : Int
  version : String
  createdAt : Int
  timestamp : Int
  ipAddress : String

/-- Validation of `data.executor`: `!data.executor || !data.executor.name`
fails, i.e. the executor object must be present with a truthy `name`. -/
def executorOk (e : Option ExecutorP) : Bool :=
  match e with
  | some ex => truthyStr ex.name
  | none => false

/-- Validation of `data.system`: `!data.system || typeof data.system !== 'object'`
fails, i.e. the value must be truthy and of object type. -/
def systemOk (s : Option Json) : Bool :=
  match s with
  | some j => j.truthy && j.typeofObject
  | none => false

/-- Validation of `data.categories`: `!data.categories || !Array.isArray(data.categories)`
fails, i.e. the value must be truthy and an array. -/
def categoriesOk (c : Option Json) : Bool :=
  match c with
  | some j => j.truthy && j.isArray
  | none => false

/-- Validation of `data.passes` / `data.fails`: `typeof x !== 'number'` fails,
i.e. the property must be present and numeric. -/
def numberOk (o : Option Int) : Bool := o.isSome

/-- The anti-forgery heuristic: `data.passes > 1000 && data.fails === 0`. -/
def suspiciousResults (passes fails : Option Int) : Bool :=
  match passes, fails with
  | some p, some f => (p > 1000) && (f == 0)
  | _, _ => false

/-- The timestamp bound: `Math.abs(currentTime - reportTime) > 3600000`. -/
def timestampOutOfRange (now : Int) (t : Int) : Bool :=
  (now - t).natAbs > 3600000

/-- Shallow embedding of `validateReportData(data, ipAddress)`
(`src/server.js` lines 144–187).  `now` is the server clock read by
`new Date()`; the result is `some message` on rejection, `none` on acceptance.
The `ip` argument is kept from the source signature; the body never reads it. -/
def validateReportData (now : Int) (data : Option Payload) (_ipAddress : String) : Option String :=
  match data with
  | none => some "Invalid report data"
  | some d =>
    if !executorOk d.executor then some "Missing executor information"
    else if !systemOk d.system then some "Invalid system information"
    else if !categoriesOk d.categories then some "Invalid test categories"
    else if !(numberOk d.passes && numberOk d.fails) then some "Invalid test results"
    else if suspiciousResults d.passes d.fails then some "Suspicious test results detected"
    else if truthyNum d.timestamp && timestampOutOfRange now (d.timestamp.getD 0) then
      some "Invalid timestamp"
    else none

/-- The id alphabet of `generateId`: `'ABCDEFGHIJKLMNOPQRSTUVWXYZ0123456789'`. -/
def idChars : List Char := "ABCDEFGHIJKLMNOPQRSTUVWXYZ0123456789".toList

/-- One draw `chars.charAt(Math.floor(Math.random() * chars.length))`, the
random index being supplied by the ambient stream. -/
def idChar (i : Fin 36) : Char :=
  idChars.get (Fin.cast (by decide) i)

/-- One candidate id: eight successive draws from the random stream `r`
(attempt number `k` consumes draws `8*k .. 8*k+7`). -/
def drawId (r : Nat → Fin 36) (k : Nat) : String :=
  String.mk ((List.range 8).map (fun i => idChar (r (8 * k + i))))

/-- Shallow embedding of `generateId()` (`src/server.js` lines 128–141): draw a
candidate, and if some stored report already carries it, recurse on a fresh
draw.  The unbounded recursion is modelled with fuel; `none` models the
non-terminating run in which every attempt collides. -/
def generateId (r : Nat → Fin 36) (reports : List Report) : Nat → Nat → Option String
  | 0, _ => none
  | fuel + 1, k =>
    let result := drawId r k
    if (reports.find? (fun rep => rep.id == result)).isSome then
      generateId r reports fuel (k + 1)
    else
      some result

/-- The server's mutable state: the in-memory `reports` array and the durable
mirror `reports.json`, represented by the JSON tree it currently stores
(`none` when the file is absent or unparseable). -/
structure ServerState : Type where
  reports : List Report
  file : Option Json

/-- Everything `app.post('/report')` produces: the HTTP status, the `error`
body field when present, the returned id on success, the state after the
request, and whether the Discord notification was dispatched. -/
structure IngestOutcome : Type where
  status : Nat
  error : Option String
  retId : Option String
  state : ServerState
  notified : Bool

/-- The report object assembled by `app.post('/report')` after validation
(`src/server.js` lines 215–234), with `now` the server clock and `clientIp`
the value of `getClientIp(req)`. -/
def buildReport (p : Payload) (id : String) (clientIp : String) (now : Int) : Report :=
  { id := id
    data := p
    executor := p.executor
    system := jsOr p.system (Json.obj [])
    player := jsOr p.player (Json.obj [])
    results :=
      { total := numOr p.totalTests 0
        passed := numOr p.passes 0
        failed := numOr p.fails 0
        successRate := numOr p.successRate 0 }
    categories := jsOr p.categories (Json.arr [])
    grade := strOr p.grade "F"
    duration := numOr p.duration 0
    version := strOr p.version "unknown"
    createdAt := now
    timestamp := numOr p.timestamp now
    ipAddress := clientIp }

/-- Shallow embedding of the `app.post('/report')` handler (`src/server.js`
lines 199–265).  Parameters model the ambient environment of one request:
`now` the server clock, `r` the random stream, `fuel` the recursion bound for
`generateId` (`none` overall models the run that never terminates), and
`writeOk` whether the durable write succeeds.  `mirror` is the JSON tree
written on success, supplied by `saveReports` below. -/
def ingestWith (mirror : List Report → Json) (st : ServerState) (body : Option Payload)
    (clientIp : String) (now : Int) (r : Nat → Fin 36) (fuel : Nat) (writeOk : Bool) :
    Option IngestOutcome :=
  match validateReportData now body clientIp with
  | some err => some ⟨400, some err, none, st, false⟩
  | none =>
    match body with
    | none => none
    | some p =>
      match generateId r st.reports fuel 0 with
      | none => none
      | some id =>
        let report := buildReport p id clientIp now
        let reports2 := st.reports ++ [report]
        if writeOk then
          some ⟨201, none, some id, ⟨reports2, some (mirror reports2)⟩, true⟩
        else
          some ⟨500, some "Failed to save report", none, ⟨reports2, st.file⟩, false⟩

/-- Shallow embedding of the `app.get('/report/:id/json')` handler
(`src/server.js` lines 268–287): an empty id is rejected, otherwise the first
stored report with that id is returned (`reports.find`). -/
def getReportJson (st : ServerState) (id : String) : Option Report :=
  if id = "" then none
  else st.reports.find? (fun rep => rep.id == id)

/-- One row of the `GET /reports` listing (`src/server.js` lines 292–302).
`executor` is `r.executor.name`, modelled with optional chaining. -/
structure Summary : Type where
  id : String
  executor : Option String
  successRate : Int
  grade : String
  totalTests : Int
  passed : Int
  duration : Int
  createdAt : Int
  ipAddress : String

/-- The summary projection of one stored report. -/
def toSummary (rep : Report) : Summary :=
  { id := rep.id
    executor := rep.executor.bind (fun e => e.name)
    successRate := rep.results.successRate
    grade := rep.grade
    totalTests := rep.results.total
    passed := rep.results.passed
    duration := rep.duration
    createdAt := rep.createdAt
    ipAddress := rep.ipAddress }

/-- Shallow embedding of the `app.get('/reports')` handler (`src/server.js`
lines 290–312): map to summaries, then
`reportsList.sort((a, b) => new Date(b.createdAt) - new Date(a.createdAt))`,
i.e. sort so that an element may precede another exactly when its `createdAt`
is at least the other's. -/
def listReports (st : ServerState) : List Summary :=
  (st.reports.map toSummary).mergeSort (fun a b => b.createdAt ≤ a.createdAt)

/-- Property lookup on a parsed JSON object (JavaScript member access on the
result of `JSON.parse`). -/
def lookupField : List (String × Json) → String → Option Json
  | [], _ => none
  | (k, v) :: rest, key => if k = key then some v else lookupField rest key

/-- An optional property of a serialized object: `JSON.stringify` omits a
member whose value is `undefined`, so an absent property serializes to no
field at all. -/
def optField {α : Type} (key : String) (f : α → Json) : Option α → List (String × Json)
  | none => []
  | some a => [(key, f a)]

/-- A property the server always writes. -/
def reqField {α : Type} (key : String) (f : α → Json) (a : α) : List (String × Json) :=
  [(key, f a)]

/-- Reading an optional property back: an absent field yields `none`, a
present field must decode. -/
def decodeOpt {α : Type} (g : Json → Option α) : Option Json → Option (Option α)
  | none => some none
  | some v => (g v).map some

/-- Reading a mandatory property back. -/
def decodeReq {α : Type} (g : Json → Option α) (o : Option Json) : Option α :=
  o.bind g

/-- A JSON string read back as a string. -/
def asStr : Json → Option String
  | .str s => some s
  | _ => none

/-- A JSON number read back as an integer. -/
def asNum : Json → Option Int
  | .num n => some n
  | _ => none

/-- Serialization of the client `executor` object. -/
def encodeExecutor (e : ExecutorP) : Json :=
  Json.obj (optField "name" Json.str e.name ++ optField "version" Json.str e.version ++
    optField "type" Json.str e.type)

/-- Reading an `executor` object back from the mirror. -/
def decodeExecutor : Json → Option ExecutorP
  | .obj fs => do
    let name ← decodeOpt asStr (lookupField fs "name")
    let version ← decodeOpt asStr (lookupField fs "version")
    let type ← decodeOpt asStr (lookupField fs "type")
    pure ⟨name, version, type⟩
  | _ => none

/-- Serialization of a raw request body (the `data` member of a stored
report, kept verbatim by the server). -/
def encodePayload (p : Payload) : Json :=
  Json.obj (optField "executor" encodeExecutor p.executor ++
    optField "system" (fun j => j) p.system ++
    optField "player" (fun j => j) p.player ++
    optField "categories" (fun j => j) p.categories ++
    optField "passes" Json.num p.passes ++
    optField "fails" Json.num p.fails ++
    optField "totalTests" Json.num p.totalTests ++
    optField "successRate" Json.num p.successRate ++
    optField "grade" Json.str p.grade ++
    optField "duration" Json.num p.duration ++
    optField "version" Json.str p.version ++
    optField "timestamp" Json.num p.timestamp)

/-- Reading a raw request body back from the mirror. -/
def decodePayload : Json → Option Payload
  | .obj fs => do
    let executor ← decodeOpt decodeExecutor (lookupField fs "executor")
    let system ← decodeOpt some (lookupField fs "system")
    let player ← decodeOpt some (lookupField fs "player")
    let categories ← decodeOpt some (lookupField fs "categories")
    let passes ← decodeOpt asNum (lookupField fs "passes")
    let fails ← decodeOpt asNum (lookupField fs "fails")
    let totalTests ← decodeOpt asNum (lookupField fs "totalTests")
    let successRate ← decodeOpt asNum (lookupField fs "successRate")
    let grade ← decodeOpt asStr (lookupField fs "grade")
    let duration ← decodeOpt asNum (lookupField fs "duration")
    let version ← decodeOpt asStr (lookupField fs "version")
    let timestamp ← decodeOpt asNum (lookupField fs "timestamp")
    pure ⟨executor, system, player, categories, passes, fails, totalTests, successRate,
      grade, duration, version, timestamp⟩
  | _ => none

/-- Serialization of the `results` object. -/
def encodeResults (res : Results) : Json :=
  Json.obj (reqField "total" Json.num res.total ++ reqField "passed" Json.num res.passed ++
    reqField "failed" Json.num res.failed ++ reqField "successRate" Json.num res.successRate)

/-- Reading a `results` object back from the mirror. -/
def decodeResults : Json → Option Results
  | .obj fs => do
    let total ← decodeReq asNum (lookupField fs "total")
    let passed ← decodeReq asNum (lookupField fs "passed")
    let failed ← decodeReq asNum (lookupField fs "failed")
    let successRate ← decodeReq asNum (lookupField fs "successRate")
    pure ⟨total, passed, failed, successRate⟩
  | _ => none

/-- Serialization of one stored report, member for member as the handler
builds it. -/
def encodeReport (rep : Report) : Json :=
  Json.obj (reqField "id" Json.str rep.id ++
    reqField "data" encodePayload rep.data ++
    optField "executor" encodeExecutor rep.executor ++
    reqField "system" (fun j => j) rep.system ++
    reqField "player" (fun j => j) rep.player ++
    reqField "results" encodeResults rep.results ++
    reqField "categories" (fun j => j) rep.categories ++
    reqField "grade" Json.str rep.grade ++
    reqField "duration" Json.num rep.duration ++
    reqField "version" Json.str rep.version ++
    reqField "createdAt" Json.num rep.createdAt ++
    reqField "timestamp" Json.num rep.timestamp ++
    reqField "ipAddress" Json.str rep.ipAddress)

/-- Reading one stored report back from the mirror. -/
def decodeReport : Json → Option Report
  | .obj fs => do
    let id ← decodeReq asStr (lookupField fs "id")
    let data ← decodeReq decodePayload (lookupField fs "data")
    let executor ← decodeOpt decodeExecutor (lookupField fs "executor")
    let system ← decodeReq some (lookupField fs "system")
    let player ← decodeReq some (lookupField fs "player")
    let results ← decodeReq decodeResults (lookupField fs "results")
    let categories ← decodeReq some (lookupField fs "categories")
    let grade ← decodeReq asStr (lookupField fs "grade")
    let duration ← decodeReq asNum (lookupField fs "duration")
    let version ← decodeReq asStr (lookupField fs "version")
    let createdAt ← decodeReq asNum (lookupField fs "createdAt")
    let timestamp ← decodeReq asNum (lookupField fs "timestamp")
    let ipAddress ← decodeReq asStr (lookupField fs "ipAddress")
    pure ⟨id, data, executor, system, player, results, categories, grade, duration,
      version, createdAt, timestamp, ipAddress⟩
  | _ => none

/-- Shallow embedding of `saveReports()` (`src/server.js` lines 48–56): the
JSON tree of `JSON.stringify(reports, null, 2)`, the whole in-memory array
rewritten wholesale. -/
def saveReports (reports : List Report) : Json :=
  Json.arr (reports.map encodeReport)

/-- The `app.post('/report')` handler with the concrete durable mirror. -/
def ingest (st : ServerState) (body : Option Payload) (clientIp : String) (now : Int)
    (r : Nat → Fin 36) (fuel : Nat) (writeOk : Bool) : Option IngestOutcome :=
  ingestWith saveReports st body clientIp now r fuel writeOk

/-- Reading a whole mirror back: the array of stored reports. -/
def decodeReports : Json → Option (List Report)
  | .arr elems => elems.mapM decodeReport
  | _ => none

/-- Shallow embedding of `loadReports()` (`src/server.js` lines 31–45): an
absent file starts fresh, otherwise the file's JSON tree is read back; a
mirror that does not decode to a report array is the error branch, which
also starts from the empty sequence. -/
def loadReports (file : Option Json) : List Report :=
  match file with
  | none => []
  | some j => (decodeReports j).getD []

/-- The constant random stream used by the concrete witnesses. -/
def r0 : Nat → Fin 36 := fun _ => ⟨0, by decide⟩

/-- The spec's scenario payload `{executor:{name:"Bob"}, system:{os:"x"}, categories:[], passes:10, fails:2}`. -/
def bobPayload : Payload :=
  { executor := some ⟨some "Bob", none, none⟩
    system := some (Json.obj [("os", Json.str "x")])
    player := none
    categories := some (Json.arr [])
    passes := some 10
    fails := some 2
    totalTests := none
    successRate := none
    grade := none
    duration := none
    version := none
    timestamp := none }

/-- The scenario payload with no `executor` member at all. -/
def missingExecPayload : Payload := { bobPayload with executor := none }

/-- The spec's forgery scenario `{executor:{name:"Bob"}, system:{os:"x"}, categories:[], passes:2000, fails:0}`. -/
def bob2000Payload : Payload := { bobPayload with passes := some 2000, fails := some 0 }

/-- A valid payload carrying the JSON number `0` as its `timestamp`. -/
def tsZeroPayload : Payload := { bobPayload with timestamp := some 0 }

/-- A valid payload carrying a negative `duration`. -/
def negDurPayload : Payload := { bobPayload with duration := some (-5) }

/-- A payload with `passes` 2000 and `fails` 0 but no `executor` member. -/
def forged2000NoExecPayload : Payload := { bob2000Payload with executor := none }

theorem lookupField_optField_append {α : Type} (k key : String) (f : α → Json) (o : Option α)
    (rest : List (String × Json)) :
    lookupField (optField k f o ++ rest) key =
      if k = key then (o.map f).orElse (fun _ => lookupField rest key)
      else lookupField rest key := by
  cases o <;> by_cases h : k = key <;> simp [optField, lookupField, h]

theorem lookupField_optField {α : Type} (k key : String) (f : α → Json) (o : Option α) :
    lookupField (optField k f o) key = if k = key then o.map f else none := by
  cases o <;> by_cases h : k = key <;> simp [optField, lookupField, h]

theorem lookupField_reqField_append {α : Type} (k key : String) (f : α → Json) (a : α)
    (rest : List (String × Json)) :
    lookupField (reqField k f a ++ rest) key =
      if k = key then some (f a) else lookupField rest key := by
  by_cases h : k = key <;> simp [reqField, lookupField, h]

theorem lookupField_reqField {α : Type} (k key : String) (f : α → Json) (a : α) :
    lookupField (reqField k f a) key = if k = key then some (f a) else none := by
  by_cases h : k = key <;> simp [reqField, lookupField, h]

theorem decodeOpt_str (o : Option String) : decodeOpt asStr (o.map Json.str) = some o := by
  cases o <;> rfl

theorem decodeOpt_num (o : Option Int) : decodeOpt asNum (o.map Json.num) = some o := by
  cases o <;> rfl

theorem decodeOpt_some (o : Option Json) : decodeOpt some o = some o := by
  cases o <;> rfl

theorem decodeExecutor_encodeExecutor (e : ExecutorP) :
    decodeExecutor (encodeExecutor e) = some e := by
  obtain ⟨n, v, t⟩ := e
  simp [encodeExecutor, decodeExecutor, lookupField_optField_append, lookupField_optField,
    decodeOpt_str]

theorem decodeOpt_executor (o : Option ExecutorP) :
    decodeOpt decodeExecutor (o.map encodeExecutor) = some o := by
  cases o <;> simp [decodeOpt, decodeExecutor_encodeExecutor]

set_option maxHeartbeats 1000000 in
theorem decodePayload_encodePayload (p : Payload) : decodePayload (encodePayload p) = some p := by
  obtain ⟨e, s, pl, c, pa, fa, tt, sr, g, d, v, t⟩ := p
  simp [encodePayload, decodePayload, lookupField_optField_append, lookupField_optField,
    decodeOpt_str, decodeOpt_num, decodeOpt_some, decodeOpt_executor]

theorem decodeResults_encodeResults (res : Results) :
    decodeResults (encodeResults res) = some res := by
  obtain ⟨a, b, c, d⟩ := res
  simp [encodeResults, decodeResults, lookupField_reqField_append, lookupField_reqField,
    decodeReq, asNum]

set_option maxHeartbeats 1000000 in
theorem decodeReport_encodeReport (rep : Report) : decodeReport (encodeReport rep) = some rep := by
  obtain ⟨id, data, ex, sys, pl, res, cat, g, d, v, ca, ts, ip⟩ := rep
  simp [encodeReport, decodeReport, lookupField_reqField_append, lookupField_reqField,
    lookupField_optField_append, lookupField_optField, decodeReq, asStr, asNum,
    decodeOpt_executor, decodePayload_encodePayload, decodeResults_encodeResults]

theorem decodeReports_saveReports (reports : List Report) :
    decodeReports (saveReports reports) = some reports := by
  induction reports with
  | nil => rfl
  | cons hd tl ih =>
    have ih2 : (tl.map encodeReport).mapM decodeReport = some tl := ih
    have h1 : decodeReports (saveReports (hd :: tl)) =
        (encodeReport hd :: tl.map encodeReport).mapM decodeReport := rfl
    rw [h1, List.mapM_cons, decodeReport_encodeReport, ih2]
    rfl

theorem idChar_mem (i : Fin 36) : idChar i ∈ idChars :=
  List.get_mem _ _ _

theorem idChars_upper_or_digit : ∀ c ∈ idChars, c.isUpper ∨ c.isDigit := by decide

theorem drawId_length (r : Nat → Fin 36) (k : Nat) : (drawId r k).length = 8 := rfl

theorem drawId_mem (r : Nat → Fin 36) (k : Nat) :
    ∀ c ∈ (drawId r k).data, c ∈ idChars := by
  intro c hc
  have hc2 : c ∈ (List.range 8).map (fun i => idChar (r (8 * k + i))) := hc
  rw [List.mem_map] at hc2
  obtain ⟨i, _, rfl⟩ := hc2
  exact idChar_mem _

theorem generateId_fresh (r : Nat → Fin 36) (reports : List Report) :
    ∀ fuel k id, generateId r reports fuel k = some id →
      (∃ j, id = drawId r j) ∧ reports.find? (fun rep => rep.id == id) = none := by
  intro fuel
  induction fuel with
  | zero => intro k id h; simp [generateId] at h
  | succ n ih =>
    intro k id h
    rw [generateId] at h
    by_cases hf : (reports.find? (fun rep => rep.id == drawId r k)).isSome
    · rw [if_pos hf] at h
      exact ih (k + 1) id h
    · rw [if_neg hf] at h
      cases h
      exact ⟨⟨k, rfl⟩, Option.not_isSome_iff_eq_none.mp hf⟩

theorem find?_append_left_none {α : Type} (p : α → Bool) (l1 l2 : List α)
    (h : l1.find? p = none) : (l1 ++ l2).find? p = l2.find? p := by
  induction l1 with
  | nil => rfl
  | cons hd tl ih =>
    cases hph : p hd with
    | true => rw [List.find?_cons_of_pos _ hph] at h; cases h
    | false =>
      rw [List.find?_cons_of_neg _ (by simp [hph])] at h
      rw [List.cons_append, List.find?_cons_of_neg _ (by simp [hph])]
      exact ih h

/-- The run of an accepted request: validation passes, the id draw terminates,
the durable write succeeds. -/
theorem ingest_accepted (st : ServerState) (p : Payload) (clientIp : String) (now : Int)
    (r : Nat → Fin 36) (fuel : Nat) (id : String)
    (hval : validateReportData now (some p) clientIp = none)
    (hid : generateId r st.reports fuel 0 = some id) :
    ingest st (some p) clientIp now r fuel true =
      some ⟨201, none, some id,
        ⟨st.reports ++ [buildReport p id clientIp now],
         some (saveReports (st.reports ++ [buildReport p id clientIp now]))⟩, true⟩ := by
  simp [ingest, ingestWith, hval, hid]


/-- C1: for every valid payload, an accepted ingest returns an id of length 8
over the uppercase-letter-plus-digit alphabet that no stored report already
carries, and a subsequent `GET /report/:id/json` returns a report whose
`executor` (hence `executor.name`) is exactly the submitted one. -/
theorem C1_ingest_fresh_id_then_get (st : ServerState) (p : Payload) (clientIp : String)
    (now : Int) (r : Nat → Fin 36) (fuel : Nat) (id : String)
    (hval : validateReportData now (some p) clientIp = none)
    (hid : generateId r st.reports fuel 0 = some id) :
    ∃ out : IngestOutcome,
      ingest st (some p) clientIp now r fuel true = some out ∧
      out.status = 201 ∧ out.retId = some id ∧
      id.length = 8 ∧
      (∀ c ∈ id.data, c ∈ idChars) ∧
      (∀ c ∈ id.data, c.isUpper ∨ c.isDigit) ∧
      (∀ rep ∈ st.reports, rep.id ≠ id) ∧
      (∃ stored : Report, getReportJson out.state id = some stored ∧
        stored.executor = p.executor) := by
  obtain ⟨⟨j, hj⟩, hfresh⟩ := generateId_fresh r st.reports fuel 0 id hid
  refine ⟨_, ingest_accepted st p clientIp now r fuel id hval hid, rfl, rfl, ?_, ?_, ?_, ?_, ?_⟩
  · rw [hj]; exact drawId_length r j
  · rw [hj]; exact drawId_mem r j
  · rw [hj]; intro c hc; exact idChars_upper_or_digit c (drawId_mem r j c hc)
  · intro rep hrep heq
    have hne := List.find?_eq_none.mp hfresh rep hrep
    rw [heq] at hne
    simp at hne
  · refine ⟨buildReport p id clientIp now, ?_, rfl⟩
    have hne : id ≠ "" := by
      intro he
      have h8 : id.length = 8 := by rw [hj]; exact drawId_length r j
      rw [he] at h8
      exact absurd h8 (by decide)
    show getReportJson ⟨st.reports ++ [buildReport p id clientIp now], _⟩ id = _
    unfold getReportJson
    rw [if_neg hne, find?_append_left_none _ _ _ hfresh]
    simp [List.find?, buildReport]

/-- C1 witness: the concrete scenario payload ingested into the empty store
under the constant random stream. -/
theorem C1_witness :
    validateReportData 0 (some bobPayload) "127.0.0.1" = none ∧
    generateId r0 [] 1 0 = some "AAAAAAAA" ∧
    (∃ out : IngestOutcome,
      ingest ⟨[], none⟩ (some bobPayload) "127.0.0.1" 0 r0 1 true = some out ∧
      out.status = 201 ∧ out.retId = some "AAAAAAAA" ∧
      ("AAAAAAAA" : String).length = 8 ∧
      (∀ c ∈ ("AAAAAAAA" : String).data, c ∈ idChars) ∧
      (∀ c ∈ ("AAAAAAAA" : String).data, c.isUpper ∨ c.isDigit) ∧
      (∀ rep ∈ ([] : List Report), rep.id ≠ "AAAAAAAA") ∧
      (∃ stored : Report, getReportJson out.state "AAAAAAAA" = some stored ∧
        stored.executor = bobPayload.executor)) :=
  ⟨by decide, by decide,
    C1_ingest_fresh_id_then_get ⟨[], none⟩ bobPayload "127.0.0.1" 0 r0 1 "AAAAAAAA"
      (by decide) (by decide)⟩

/-- C2: the listing returned by `GET /reports` is sorted by `createdAt`
descending: every adjacent pair (a, b) satisfies `a.createdAt ≥ b.createdAt`,
for every state of the store. -/
theorem C2_listing_sorted_desc (st : ServerState) :
    (listReports st).Chain' (fun a b => b.createdAt ≤ a.createdAt) := by
  have htrans : ∀ a b c : Summary,
      (fun a b : Summary => decide (b.createdAt ≤ a.createdAt)) a b = true →
      (fun a b : Summary => decide (b.createdAt ≤ a.createdAt)) b c = true →
      (fun a b : Summary => decide (b.createdAt ≤ a.createdAt)) a c = true := by
    intro a b c hab hbc
    simp only [decide_eq_true_eq] at hab hbc ⊢
    exact le_trans hbc hab
  have htotal : ∀ a b : Summary,
      ((fun a b : Summary => decide (b.createdAt ≤ a.createdAt)) a b ||
       (fun a b : Summary => decide (b.createdAt ≤ a.createdAt)) b a) = true := by
    intro a b
    simp only [Bool.or_eq_true, decide_eq_true_eq]
    exact Int.le_total b.createdAt a.createdAt
  have h := List.sorted_mergeSort htrans htotal (st.reports.map toSummary)
  have h2 : List.Pairwise (fun a b : Summary => b.createdAt ≤ a.createdAt) (listReports st) := by
    unfold listReports
    exact h.imp (fun hab => by simpa using hab)
  exact h2.chain'

/-- C3: a payload whose `executor.name` is absent or empty is rejected with
the `Missing executor information` error (HTTP 400) and nothing changes:
no report is appended, the durable mirror is untouched, no notification. -/
theorem C3_missing_executor_rejected (st : ServerState) (p : Payload) (clientIp : String)
    (now : Int) (r : Nat → Fin 36) (fuel : Nat) (writeOk : Bool)
    (h : p.executor = none ∨ ∃ e, p.executor = some e ∧ (e.name = none ∨ e.name = some "")) :
    ingest st (some p) clientIp now r fuel writeOk =
      some ⟨400, some "Missing executor information", none, st, false⟩ := by
  have hex : executorOk p.executor = false := by
    rcases h with h | ⟨e, he, hn⟩
    · rw [h]; rfl
    · rw [he]; rcases hn with hn | hn <;> simp [executorOk, truthyStr, hn]
  simp [ingest, ingestWith, validateReportData, hex]

/-- C3 witness: the scenario payload with its `executor` member removed. -/
theorem C3_witness :
    (missingExecPayload.executor = none ∨
      ∃ e, missingExecPayload.executor = some e ∧ (e.name = none ∨ e.name = some "")) ∧
    ingest ⟨[], none⟩ (some missingExecPayload) "127.0.0.1" 0 r0 1 true =
      some ⟨400, some "Missing executor information", none, ⟨[], none⟩, false⟩ :=
  ⟨Or.inl rfl,
    C3_missing_executor_rejected ⟨[], none⟩ missingExecPayload "127.0.0.1" 0 r0 1 true
      (Or.inl rfl)⟩

/-- C4: when the durable write fails after the validated report has been
appended, ingest answers HTTP 500 (`Failed to save report`), the in-memory
array keeps the appended report (no rollback), the mirror keeps its previous
content, and no notification is attempted. -/
theorem C4_persist_failure_keeps_memory (st : ServerState) (p : Payload) (clientIp : String)
    (now : Int) (r : Nat → Fin 36) (fuel : Nat) (id : String)
    (hval : validateReportData now (some p) clientIp = none)
    (hid : generateId r st.reports fuel 0 = some id) :
    ingest st (some p) clientIp now r fuel false =
      some ⟨500, some "Failed to save report", none,
        ⟨st.reports ++ [buildReport p id clientIp now], st.file⟩, false⟩ := by
  simp [ingest, ingestWith, hval, hid]

/-- C4 witness: the scenario payload against a failing durable write. -/
theorem C4_witness :
    validateReportData 0 (some bobPayload) "127.0.0.1" = none ∧
    generateId r0 [] 1 0 = some "AAAAAAAA" ∧
    ingest ⟨[], none⟩ (some bobPayload) "127.0.0.1" 0 r0 1 false =
      some ⟨500, some "Failed to save report", none,
        ⟨[buildReport bobPayload "AAAAAAAA" "127.0.0.1" 0], none⟩, false⟩ :=
  ⟨by decide, by decide,
    C4_persist_failure_keeps_memory ⟨[], none⟩ bobPayload "127.0.0.1" 0 r0 1 "AAAAAAAA"
      (by decide) (by decide)⟩

/-- C5 counterexample: `tsZeroPayload` carries the JSON number `0` as its
`timestamp`, the server clock reads 100000000 ms, so the client timestamp
differs from server time by far more than one hour — yet validation accepts,
because `if (data.timestamp)` treats the falsy value `0` as absent. -/
theorem C5_counterexample :
    tsZeroPayload.timestamp = some 0 ∧
    timestampOutOfRange 100000000 0 = true ∧
    validateReportData 100000000 (some tsZeroPayload) "127.0.0.1" = none := by
  refine ⟨rfl, by decide, by decide⟩

/-- C5 amended: for every payload, validation returns the timestamp error iff
all earlier checks pass, the timestamp is present and truthy (nonzero), and it
differs from server time by more than one hour; and validation accepts iff
additionally every truthy timestamp is within the one-hour tolerance, so a
truthy timestamp within tolerance never causes rejection. -/
theorem C5_amended_timestamp_iff (now : Int) (p : Payload) (clientIp : String) :
    (validateReportData now (some p) clientIp = some "Invalid timestamp" ↔
      (executorOk p.executor = true ∧ systemOk p.system = true ∧
       categoriesOk p.categories = true ∧ numberOk p.passes = true ∧
       numberOk p.fails = true ∧ suspiciousResults p.passes p.fails = false ∧
       ∃ t, p.timestamp = some t ∧ t ≠ 0 ∧ 3600000 < (now - t).natAbs)) ∧
    (validateReportData now (some p) clientIp = none ↔
      (executorOk p.executor = true ∧ systemOk p.system = true ∧
       categoriesOk p.categories = true ∧ numberOk p.passes = true ∧
       numberOk p.fails = true ∧ suspiciousResults p.passes p.fails = false ∧
       (p.timestamp = none ∨ p.timestamp = some 0 ∨
        ∃ t, p.timestamp = some t ∧ (now - t).natAbs ≤ 3600000))) := by
  rcases hts : p.timestamp with _ | t
  · simp only [validateReportData]
    rw [hts]
    split_ifs with h1 h2 h3 h4 h5 <;>
      simp_all [truthyNum, timestampOutOfRange, Bool.not_eq_true]
    intro hp hf
    rcases h4 with h4 | h4 <;> simp_all
  · simp only [validateReportData]
    rw [hts]
    by_cases ht0 : t = 0
    · subst ht0
      split_ifs with h1 h2 h3 h4 h5 h6 <;>
        simp_all [truthyNum, timestampOutOfRange, Bool.not_eq_true]
      intro hp hf
      rcases h4 with h4 | h4 <;> simp_all
    · split_ifs with h1 h2 h3 h4 h5 h6 <;>
        simp_all [truthyNum, timestampOutOfRange, Bool.not_eq_true, ht0]
      constructor <;> (intro hp hf hsusp; rcases h4 with h4 | h4 <;> simp_all)

/-- C6 counterexample: a payload with numeric `passes` 2000 and `fails` 0 but
no `executor` member is rejected with the executor error, not the
implausible-results error, because the executor check runs first. -/
theorem C6_counterexample :
    forged2000NoExecPayload.passes = some 2000 ∧
    forged2000NoExecPayload.fails = some 0 ∧
    validateReportData 0 (some forged2000NoExecPayload) "127.0.0.1" =
      some "Missing executor information" ∧
    validateReportData 0 (some forged2000NoExecPayload) "127.0.0.1" ≠
      some "Suspicious test results detected" :=
  ⟨rfl, rfl, by decide, by decide⟩

/-- C6 amended: among payloads passing the structural checks (executor,
system, categories), validation rejects with the implausible-results error
exactly when `passes > 1000` and `fails == 0`; and the spec's forgery
scenario payload is rejected by ingest with HTTP 400, that error, and no
state change. -/
theorem C6_amended_implausible_results :
    (∀ (now : Int) (p : Payload) (clientIp : String),
      validateReportData now (some p) clientIp = some "Suspicious test results detected" ↔
        (executorOk p.executor = true ∧ systemOk p.system = true ∧
         categoriesOk p.categories = true ∧
         ∃ pa fa, p.passes = some pa ∧ p.fails = some fa ∧ 1000 < pa ∧ fa = 0)) ∧
    ingest ⟨[], none⟩ (some bob2000Payload) "127.0.0.1" 0 r0 1 true =
      some ⟨400, some "Suspicious test results detected", none, ⟨[], none⟩, false⟩ := by
  constructor
  · intro now p clientIp
    rcases hpa : p.passes with _ | pa <;> rcases hfa : p.fails with _ | fa <;>
        simp only [validateReportData] <;> rw [hpa, hfa] <;>
        split_ifs with h1 h2 h3 h4 h5 <;>
      simp_all [numberOk, suspiciousResults, Bool.not_eq_true]
  · rfl

/-- C7: on acceptance, missing client fields are folded in with the
documented defaults: absent numeric fields become 0, absent `grade` becomes
the worst grade `F`, absent `version` becomes `unknown`. -/
theorem C7_defaults_on_acceptance (st : ServerState) (p : Payload) (clientIp : String)
    (now : Int) (r : Nat → Fin 36) (fuel : Nat) (id : String)
    (hval : validateReportData now (some p) clientIp = none)
    (hid : generateId r st.reports fuel 0 = some id) :
    ∃ out : IngestOutcome, ingest st (some p) clientIp now r fuel true = some out ∧
      out.status = 201 ∧
      ∃ stored : Report, out.state.reports = st.reports ++ [stored] ∧
        stored.results.total = numOr p.totalTests 0 ∧
        stored.results.passed = numOr p.passes 0 ∧
        stored.results.failed = numOr p.fails 0 ∧
        stored.results.successRate = numOr p.successRate 0 ∧
        stored.grade = strOr p.grade "F" ∧
        stored.version = strOr p.version "unknown" ∧
        stored.duration = numOr p.duration 0 ∧
        (p.totalTests = none → stored.results.total = 0) ∧
        (p.successRate = none → stored.results.successRate = 0) ∧
        (p.duration = none → stored.duration = 0) ∧
        (p.grade = none → stored.grade = "F") ∧
        (p.version = none → stored.version = "unknown") := by
  refine ⟨_, ingest_accepted st p clientIp now r fuel id hval hid, rfl,
    buildReport p id clientIp now, rfl, rfl, rfl, rfl, rfl, rfl, rfl, rfl,
    ?_, ?_, ?_, ?_, ?_⟩
  all_goals intro h
  all_goals simp [buildReport, numOr, strOr, h]

/-- C7 witness: the spec's scenario payload (`passes` 10, `fails` 2, nothing
else supplied) is accepted with `total` 0, `passed` 10, `failed` 2,
`successRate` 0. -/
theorem C7_witness :
    validateReportData 0 (some bobPayload) "127.0.0.1" = none ∧
    generateId r0 [] 1 0 = some "AAAAAAAA" ∧
    (buildReport bobPayload "AAAAAAAA" "127.0.0.1" 0).results.successRate = 0 ∧
    (buildReport bobPayload "AAAAAAAA" "127.0.0.1" 0).results.total = 0 ∧
    (buildReport bobPayload "AAAAAAAA" "127.0.0.1" 0).results.passed = 10 ∧
    (buildReport bobPayload "AAAAAAAA" "127.0.0.1" 0).results.failed = 2 ∧
    (∃ out : IngestOutcome,
      ingest ⟨[], none⟩ (some bobPayload) "127.0.0.1" 0 r0 1 true = some out ∧
      out.status = 201 ∧
      ∃ stored : Report, out.state.reports = [] ++ [stored] ∧
        stored.results.total = numOr bobPayload.totalTests 0 ∧
        stored.results.passed = numOr bobPayload.passes 0 ∧
        stored.results.failed = numOr bobPayload.fails 0 ∧
        stored.results.successRate = numOr bobPayload.successRate 0 ∧
        stored.grade = strOr bobPayload.grade "F" ∧
        stored.version = strOr bobPayload.version "unknown" ∧
        stored.duration = numOr bobPayload.duration 0 ∧
        (bobPayload.totalTests = none → stored.results.total = 0) ∧
        (bobPayload.successRate = none → stored.results.successRate = 0) ∧
        (bobPayload.duration = none → stored.duration = 0) ∧
        (bobPayload.grade = none → stored.grade = "F") ∧
        (bobPayload.version = none → stored.version = "unknown")) :=
  ⟨by decide, by decide, by decide, by decide, by decide, by decide,
    C7_defaults_on_acceptance ⟨[], none⟩ bobPayload "127.0.0.1" 0 r0 1 "AAAAAAAA"
      (by decide) (by decide)⟩

/-- C8: a report sequence written to the durable mirror by `saveReports` and
read back by `loadReports` (simulating a restart) is recovered field for
field. -/
theorem C8_mirror_roundtrip (reports : List Report) :
    loadReports (some (saveReports reports)) = reports := by
  simp [loadReports, decodeReports_saveReports]

/-- C9 counterexample: a valid payload submitting `duration: -5` is accepted
(HTTP 201) and stored with the negative duration unchanged. -/
theorem C9_counterexample :
    validateReportData 0 (some negDurPayload) "127.0.0.1" = none ∧
    ingest ⟨[], none⟩ (some negDurPayload) "127.0.0.1" 0 r0 1 true =
      some ⟨201, none, some "AAAAAAAA",
        ⟨[buildReport negDurPayload "AAAAAAAA" "127.0.0.1" 0],
         some (saveReports [buildReport negDurPayload "AAAAAAAA" "127.0.0.1" 0])⟩, true⟩ ∧
    (buildReport negDurPayload "AAAAAAAA" "127.0.0.1" 0).duration = -5 ∧
    (buildReport negDurPayload "AAAAAAAA" "127.0.0.1" 0).duration < 0 :=
  ⟨by decide, rfl, by decide, by decide⟩

/-- C9 amended: the stored `duration` is the submitted value when truthy and
0 otherwise, so it is non-negative whenever the submitted duration is absent
or non-negative; a negative submitted duration is stored unchanged. -/
theorem C9_amended_duration_nonneg (st : ServerState) (p : Payload) (clientIp : String)
    (now : Int) (r : Nat → Fin 36) (fuel : Nat) (id : String)
    (hval : validateReportData now (some p) clientIp = none)
    (hid : generateId r st.reports fuel 0 = some id) :
    ∃ out : IngestOutcome, ∃ stored : Report,
      ingest st (some p) clientIp now r fuel true = some out ∧
      out.status = 201 ∧
      out.state.reports = st.reports ++ [stored] ∧
      stored.duration = numOr p.duration 0 ∧
      ((∀ d, p.duration = some d → 0 ≤ d) → 0 ≤ stored.duration) := by
  refine ⟨_, buildReport p id clientIp now,
    ingest_accepted st p clientIp now r fuel id hval hid, rfl, rfl, rfl, ?_⟩
  intro h
  show (0 : Int) ≤ numOr p.duration 0
  rcases hd : p.duration with _ | d
  · simp [numOr]
  · by_cases d0 : d = 0
    · simp [numOr, d0]
    · simpa [numOr, d0] using h d hd

/-- C9 witness: the scenario payload, which supplies no `duration`. -/
theorem C9_witness :
    validateReportData 0 (some bobPayload) "127.0.0.1" = none ∧
    generateId r0 [] 1 0 = some "AAAAAAAA" ∧
    (∃ out : IngestOutcome, ∃ stored : Report,
      ingest ⟨[], none⟩ (some bobPayload) "127.0.0.1" 0 r0 1 true = some out ∧
      out.status = 201 ∧
      out.state.reports = [] ++ [stored] ∧
      stored.duration = numOr bobPayload.duration 0 ∧
      ((∀ d, bobPayload.duration = some d → 0 ≤ d) → 0 ≤ stored.duration)) :=
  ⟨by decide, by decide,
    C9_amended_duration_nonneg ⟨[], none⟩ bobPayload "127.0.0.1" 0 r0 1 "AAAAAAAA"
      (by decide) (by decide)⟩

/-- C10: when the submitted `timestamp` is absent or falsy (the JSON number
0), the stored report's `timestamp` is the server clock at ingestion, the
same instant recorded in `createdAt`; the stored field is always defined. -/
theorem C10_timestamp_defaults_to_now (st : ServerState) (p : Payload) (clientIp : String)
    (now : Int) (r : Nat → Fin 36) (fuel : Nat) (id : String)
    (hval : validateReportData now (some p) clientIp = none)
    (hid : generateId r st.reports fuel 0 = some id)
    (hts : p.timestamp = none ∨ p.timestamp = some 0) :
    ∃ out : IngestOutcome, ∃ stored : Report,
      ingest st (some p) clientIp now r fuel true = some out ∧
      out.state.reports = st.reports ++ [stored] ∧
      stored.timestamp = now ∧
      stored.createdAt = now := by
  refine ⟨_, buildReport p id clientIp now,
    ingest_accepted st p clientIp now r fuel id hval hid, rfl, ?_, rfl⟩
  show numOr p.timestamp now = now
  rcases hts with h | h <;> simp [numOr, h]

/-- C10 witness: the scenario payload, which supplies no `timestamp`. -/
theorem C10_witness :
    validateReportData 0 (some bobPayload) "127.0.0.1" = none ∧
    generateId r0 [] 1 0 = some "AAAAAAAA" ∧
    (bobPayload.timestamp = none ∨ bobPayload.timestamp = some 0) ∧
    (∃ out : IngestOutcome, ∃ stored : Report,
      ingest ⟨[], none⟩ (some bobPayload) "127.0.0.1" 0 r0 1 true = some out ∧
      out.state.reports = [] ++ [stored] ∧
      stored.timestamp = 0 ∧
      stored.createdAt = 0) :=
  ⟨by decide, by decide, Or.inl rfl,
    C10_timestamp_defaults_to_now ⟨[], none⟩ bobPayload "127.0.0.1" 0 r0 1 "AAAAAAAA"
      (by decide) (by decide) (Or.inl rfl)⟩
